import Mathlib

/-!
# Verification of the Personal Library Manager (`src/app.py`)

Shallow embedding of the Streamlit library-manager application.  The program
keeps an in-memory list of book records (`st.session_state.library`), persists
it as JSON to a flat file on every mutation, and offers add / remove / search /
list / statistics views.

Modelling conventions:
* A JSON value is the inductive `JValue`; Python dicts become ordered
  association lists `List (String × JValue)`.
* The persisted file is modelled at the level of the parsed JSON value
  (Python's `json.dump` / `json.load` are the external serialization layer);
  `save_library` overwrites the whole file with the encoded store.
* Streamlit calls (`st.success`, `st.warning`, `st.info`, `st.metric`, …) are
  modelled as observable flags / fields of each operation's result record.
* Python float arithmetic in the statistics view is modelled with exact
  rationals `ℚ`; for the concrete values appearing in the claims the two
  agree.
* Python string truthiness (`if title and author`) is the non-emptiness test;
  Python's case folding `str.lower` is modelled by `Char.toLower` (the claims
  only exercise ASCII data).
-/

namespace LibraryManager

/-- A JSON value, as produced by `json.load`.  Objects keep their key order
(Python dicts preserve insertion order). -/
inductive JValue where
  | str (s : String)
  | int (n : Int)
  | bool (b : Bool)
  | null
  | arr (elems : List JValue)
  | obj (fields : List (String × JValue))
deriving Repr, BEq

/-- A book record as constructed by `add_book` in `src/app.py`:
`{"title": .., "author": .., "year": .., "genre": .., "read": ..}`. -/
structure Book where
  title : String
  author : String
  year : Int
  genre : String
  read : Bool
deriving Repr, DecidableEq

/-- JSON encoding of one book, with the key order used by `add_book`
(lines 45–51 of `src/app.py`). -/
def bookToJson (b : Book) : JValue :=
  .obj [("title", .str b.title), ("author", .str b.author),
        ("year", .int b.year), ("genre", .str b.genre), ("read", .bool b.read)]

/-- JSON encoding of the whole store, as written by `json.dump` in
`save_library` (line 26). -/
def encodeLibrary (lib : List Book) : JValue :=
  .arr (lib.map bookToJson)

/-- `save_library` (lines 23–29): overwrites the persisted file with the JSON
encoding of the current store, regardless of the file's previous content. -/
def save_library (lib : List Book) (_prevFile : Option JValue) : JValue :=
  encodeLibrary lib

/-- What the startup code finds when it opens `LIBRARY_FILE`. -/
inductive LoadInput where
  | noFile
  | parseError
  | parsed (v : JValue)
deriving Repr

/-- The module-level startup load (lines 13–20 of `src/app.py`): when the file
exists and parses, the parsed JSON value is installed as the store verbatim;
a missing file leaves the initial empty list, and any exception resets the
store to the empty list.  No shape validation of the parsed value occurs. -/
def startupLoad : LoadInput → JValue
  | .noFile => .arr []
  | .parseError => .arr []
  | .parsed v => v

/-- Decoding one book back out of its JSON object: looks up the five fields
and checks their types.  This is the "records equal to the original" reading
of the round-trip property; the program itself keeps raw records. -/
def decodeBook (v : JValue) : Option Book :=
  match v with
  | .obj fields =>
    match fields.lookup "title", fields.lookup "author", fields.lookup "year",
          fields.lookup "genre", fields.lookup "read" with
    | some (.str t), some (.str a), some (.int y), some (.str g), some (.bool r) =>
      some ⟨t, a, y, g, r⟩
    | _, _, _, _, _ => none
  | _ => none

/-- Decoding a whole store: the value must be an array of well-formed book
objects. -/
def decodeLibrary (v : JValue) : Option (List Book) :=
  match v with
  | .arr elems => elems.mapM decodeBook
  | _ => none

/-! ## `add_book` (lines 32–57) -/

/-- Observable outcome of one submitted pass through `add_book`. -/
structure AddResult where
  library : List Book
  saved : Bool
  warning : Bool
deriving Repr, DecidableEq

/-- `add_book` (lines 44–57), for a submitted form: Python's
`if submitted and title and author` accepts exactly non-empty `title` and
`author`; on success it appends the constructed record and calls
`save_library`; otherwise it emits the "Title and author are required!"
warning and touches nothing. -/
def add_book (lib : List Book) (title author : String) (year : Int)
    (genre : String) (read_status : String) : AddResult :=
  if title ≠ "" ∧ author ≠ "" then
    { library := lib ++ [{ title := title, author := author, year := year,
                           genre := genre, read := read_status == "Yes" }]
      saved := true
      warning := false }
  else
    { library := lib, saved := false, warning := true }

/-! ## `remove_book` (lines 60–80) -/

/-- Observable outcome of one pass through `remove_book`. -/
structure RemoveResult where
  library : List Book
  saved : Bool
  emptyInfo : Bool
  removed : Option Book
  indexError : Bool
deriving Repr, DecidableEq

/-- `remove_book` (lines 60–80): an empty store short-circuits with the
"Your library is empty." notice; otherwise `library.pop(index)` removes the
selected position and `save_library` runs.  The selectbox only offers indices
in `range(len(library))`; an out-of-range `pop` would raise `IndexError`
before any mutation or save (last branch). -/
def remove_book (lib : List Book) (index : Nat) : RemoveResult :=
  if lib = [] then
    { library := lib, saved := false, emptyInfo := true, removed := none,
      indexError := false }
  else if h : index < lib.length then
    { library := lib.eraseIdx index, saved := true, emptyInfo := false,
      removed := some (lib.get ⟨index, h⟩), indexError := false }
  else
    { library := lib, saved := false, emptyInfo := false, removed := none,
      indexError := true }

/-! ## `search_book` (lines 83–106) -/

/-- Python's `str.lower`, as the character list of the lowercased string
(the claims only exercise ASCII data, where `Char.toLower` and Python's case
folding agree). -/
def lowerStr (s : String) : List Char :=
  s.toList.map Char.toLower

/-- Python's substring test `needle in hay` on strings (lines 98–99), as a
scan over the character list. -/
def charsContain (hay needle : List Char) : Bool :=
  hay.tails.any (fun suf => needle.isPrefixOf suf)

/-- The per-book match condition of the search loop (lines 98–99): the radio
value selects which field is tested; `t` is the already-lowercased term. -/
def bookMatches (search_by : String) (t : List Char) (b : Book) : Bool :=
  (search_by == "Title" && charsContain (lowerStr b.title) t)
    || (search_by == "Author" && charsContain (lowerStr b.author) t)

/-- `search_book` (lines 83–106): an empty store short-circuits; an empty
term never triggers the search (`if search_term:`); otherwise the term is
lowercased once and the loop appends each matching book in store order. -/
def search_book (lib : List Book) (search_by term : String) : List Book :=
  if lib = [] then []
  else if term = "" then []
  else
    lib.foldl
      (fun acc b => if bookMatches search_by (lowerStr term) b then acc ++ [b] else acc)
      []

/-! ## `display_stats` (lines 137–175) -/

/-- The percentage expression of line 146:
`(read_books / total_books) * 100 if total_books > 0 else 0`, with Python's
float division modelled over `ℚ`. -/
def pctExpr (read_books total_books : Nat) : ℚ :=
  if total_books > 0 then ((read_books : ℚ) / (total_books : ℚ)) * 100 else 0

/-- Python's one-decimal rendering `f"{p:.1f}"` for a non-negative
percentage: round to the nearest tenth and print integer part, dot, tenths
digit (the claims' values are not ties, where binary-float rounding could
differ from exact rounding). -/
def fmtPct1 (p : ℚ) : String :=
  toString (round (p * 10) / 10 : ℤ) ++ "." ++ toString (round (p * 10) % 10 : ℤ)

/-- `genre_counts[genre] += 1` on the entry carrying key `g` (line 166),
leaving other entries alone. -/
def bumpIfKey (g : String) (p : String × Nat) : String × Nat :=
  if p.1 == g then (p.1, p.2 + 1) else p

/-- One step of the genre-count loop (lines 163–168): bump the entry if the
genre is already a key of the dict, otherwise append a fresh entry with
count 1 (Python dicts preserve insertion order). -/
def addGenre (counts : List (String × Nat)) (g : String) : List (String × Nat) :=
  if counts.any (fun p => p.1 == g) then
    counts.map (bumpIfKey g)
  else
    counts ++ [(g, 1)]

/-- The genre distribution dict built by lines 162–168, keyed by the raw
`book["genre"]` string. -/
def genreCountsList (gs : List String) : List (String × Nat) :=
  gs.foldl addGenre []

/-- Observable outcome of one pass through `display_stats`. -/
structure StatsResult where
  emptyInfo : Bool
  metrics : Option (Nat × Nat × ℚ)
  genreChart : Option (List (String × Nat))
deriving Repr

/-- `display_stats` (lines 137–175): an empty store short-circuits with the
"Your library is empty." notice and renders neither metrics nor chart;
otherwise it shows total count, read count (`sum(1 for … if book["read"])`),
the percentage expression, and the genre distribution. -/
def display_stats (lib : List Book) : StatsResult :=
  if lib = [] then
    { emptyInfo := true, metrics := none, genreChart := none }
  else
    let total_books := lib.length
    let read_books := (lib.filter (fun b => b.read)).length
    { emptyInfo := false
      metrics := some (total_books, read_books, pctExpr read_books total_books)
      genreChart := some (genreCountsList (lib.map (fun b => b.genre))) }

/-! ## `display_books` (lines 109–134) -/

/-- Spec-side predicate (not present in the code): a JSON value is a
well-formed Book record — it carries the five fields with the right types,
`title` and `author` are non-empty, and `year` lies in the plausible range
1000–2100 enforced by the add form's number input (line 38). -/
def specBookValid (v : JValue) : Bool :=
  match decodeBook v with
  | some b =>
    (b.title != "") && (b.author != "") &&
      decide (1000 ≤ b.year) && decide (b.year ≤ 2100)
  | none => false

/-- Spec-side predicate (not present in the code): a JSON value is a
well-formed record store — a JSON array of well-formed Book records. -/
def specStoreValid (v : JValue) : Bool :=
  match v with
  | .arr elems => elems.all specBookValid
  | _ => false

/-! ## Theorems for claims C1–C3 -/

/-- C1: `add_book` constructs and appends a Book iff both title and author are
non-empty; on success it appends exactly one record (length grows by one,
earlier records untouched) and persists; on empty title or author it warns and
leaves the store unchanged with no save. -/
theorem add_book_spec (lib : List Book) (title author : String) (year : Int)
    (genre : String) (rs : String) :
    (title ≠ "" ∧ author ≠ "" →
      add_book lib title author year genre rs =
        { library := lib ++ [⟨title, author, year, genre, rs == "Yes"⟩],
          saved := true, warning := false } ∧
      (add_book lib title author year genre rs).library.length = lib.length + 1 ∧
      ∀ i : Nat, i < lib.length →
        (add_book lib title author year genre rs).library[i]? = lib[i]?) ∧
    (title = "" ∨ author = "" →
      add_book lib title author year genre rs =
        { library := lib, saved := false, warning := true }) := by
  constructor
  · intro h
    refine ⟨by simp [add_book, h.1, h.2], ?_, ?_⟩
    · simp [add_book, h.1, h.2]
    · intro i hi
      simp only [add_book, h.1, h.2, ne_eq, not_false_eq_true, and_self, if_true]
      exact List.getElem?_append_left hi
  · intro h
    have : ¬(title ≠ "" ∧ author ≠ "") := by
      rcases h with h | h <;> simp [h]
    simp [add_book, this]

/-- Witness for C1 at concrete inputs: a valid add appends the record and
saves; an add with an empty title warns and changes nothing. -/
theorem add_book_spec_witness :
    (("The Hobbit" : String) ≠ "" ∧ ("J.R.R. Tolkien" : String) ≠ "") ∧
    add_book [] "The Hobbit" "J.R.R. Tolkien" 1937 "Fantasy" "Yes" =
      { library := [⟨"The Hobbit", "J.R.R. Tolkien", 1937, "Fantasy", true⟩],
        saved := true, warning := false } ∧
    add_book [] "" "J.R.R. Tolkien" 1937 "Fantasy" "Yes" =
      { library := [], saved := false, warning := true } := by
  refine ⟨by decide, ?_, ?_⟩
  · have h := (add_book_spec [] "The Hobbit" "J.R.R. Tolkien" 1937 "Fantasy" "Yes").1
      (by decide)
    exact h.1
  · exact (add_book_spec [] "" "J.R.R. Tolkien" 1937 "Fantasy" "Yes").2 (Or.inl rfl)

/-- C2: on a non-empty store with an in-bounds index, `remove_book` removes
exactly the book at that position, shrinks the store by one, keeps the
remaining records in order (prefix/suffix unchanged), reports the removed
book, and persists. -/
theorem remove_book_valid_spec (lib : List Book) (i : Nat) (hne : lib ≠ [])
    (hi : i < lib.length) :
    (remove_book lib i).library.length + 1 = lib.length ∧
    (remove_book lib i).library = lib.take i ++ lib.drop (i + 1) ∧
    (remove_book lib i).removed = some (lib.get ⟨i, hi⟩) ∧
    (remove_book lib i).library.Sublist lib ∧
    (remove_book lib i).saved = true := by
  have hrw : remove_book lib i =
      { library := lib.eraseIdx i, saved := true, emptyInfo := false,
        removed := some (lib.get ⟨i, hi⟩), indexError := false } := by
    simp [remove_book, hne, hi]
  rw [hrw]
  refine ⟨List.length_eraseIdx_add_one hi, ?_, rfl, List.eraseIdx_sublist lib i, rfl⟩
  exact List.eraseIdx_eq_take_drop_succ lib i

/-- Witness for C2: removing index 1 from a three-book store drops exactly
the middle book and saves. -/
theorem remove_book_valid_spec_witness :
    ([(⟨"A", "a", 2000, "", false⟩ : Book), ⟨"B", "b", 2001, "", true⟩,
      ⟨"C", "c", 2002, "", false⟩] ≠ []) ∧
    (1 < ([(⟨"A", "a", 2000, "", false⟩ : Book), ⟨"B", "b", 2001, "", true⟩,
      ⟨"C", "c", 2002, "", false⟩] : List Book).length) ∧
    (remove_book [⟨"A", "a", 2000, "", false⟩, ⟨"B", "b", 2001, "", true⟩,
      ⟨"C", "c", 2002, "", false⟩] 1).library =
      [⟨"A", "a", 2000, "", false⟩, ⟨"C", "c", 2002, "", false⟩] ∧
    (remove_book [⟨"A", "a", 2000, "", false⟩, ⟨"B", "b", 2001, "", true⟩,
      ⟨"C", "c", 2002, "", false⟩] 1).removed = some ⟨"B", "b", 2001, "", true⟩ := by
  have h := remove_book_valid_spec
    [⟨"A", "a", 2000, "", false⟩, ⟨"B", "b", 2001, "", true⟩,
     ⟨"C", "c", 2002, "", false⟩] 1 (by decide) (by decide)
  exact ⟨by decide, by decide, by rw [h.2.1]; rfl, h.2.2.1⟩

/-- C3: `remove_book` on an empty store is a no-op that informs the user the
library is empty; with an out-of-range index on a non-empty store it also
leaves the store unchanged and performs no save (the `pop` raises before any
mutation). -/
theorem remove_book_invalid_spec (lib : List Book) (i : Nat) :
    (lib = [] →
      remove_book lib i =
        { library := lib, saved := false, emptyInfo := true, removed := none,
          indexError := false }) ∧
    (lib ≠ [] → lib.length ≤ i →
      remove_book lib i =
        { library := lib, saved := false, emptyInfo := false, removed := none,
          indexError := true }) := by
  constructor
  · intro h; simp [remove_book, h]
  · intro hne hub
    have : ¬ i < lib.length := not_lt.mpr hub
    simp [remove_book, hne, this]

/-- Witness for C3: removing from the empty store informs and changes nothing;
removing index 5 from a one-book store changes nothing and saves nothing. -/
theorem remove_book_invalid_spec_witness :
    remove_book [] 0 =
      { library := [], saved := false, emptyInfo := true, removed := none,
        indexError := false } ∧
    (([(⟨"A", "a", 2000, "", false⟩ : Book)] : List Book) ≠ []) ∧
    remove_book [(⟨"A", "a", 2000, "", false⟩ : Book)] 5 =
      { library := [⟨"A", "a", 2000, "", false⟩], saved := false,
        emptyInfo := false, removed := none, indexError := true } := by
  refine ⟨(remove_book_invalid_spec [] 0).1 rfl, by decide, ?_⟩
  exact (remove_book_invalid_spec [⟨"A", "a", 2000, "", false⟩] 5).2
    (by decide) (by decide)

/-! ## Theorems for claim C4 -/

theorem isPrefixOf_eq_true_iff (n : List Char) :
    ∀ h : List Char, n.isPrefixOf h = true ↔ ∃ r, h = n ++ r := by
  induction n with
  | nil => intro h; simp [List.isPrefixOf]
  | cons a as ih =>
    intro h
    cases h with
    | nil => simp [List.isPrefixOf]
    | cons b bs =>
      simp only [List.isPrefixOf, Bool.and_eq_true, beq_iff_eq, ih,
        List.cons_append, List.cons.injEq]
      constructor
      · rintro ⟨rfl, r, rfl⟩; exact ⟨r, rfl, rfl⟩
      · rintro ⟨r, rfl, rfl⟩; exact ⟨rfl, r, rfl⟩

/-- `charsContain hay needle` holds exactly when `needle` occurs as a
contiguous substring of `hay`. -/
theorem charsContain_iff (hay needle : List Char) :
    charsContain hay needle = true ↔
      ∃ l r : List Char, hay = l ++ needle ++ r := by
  unfold charsContain
  rw [List.any_eq_true]
  constructor
  · rintro ⟨suf, hmem, hpre⟩
    rw [List.mem_tails] at hmem
    obtain ⟨l, hl⟩ := hmem
    obtain ⟨r, rfl⟩ := (isPrefixOf_eq_true_iff _ _).mp hpre
    exact ⟨l, r, by rw [← hl, List.append_assoc]⟩
  · rintro ⟨l, r, h⟩
    refine ⟨needle ++ r, ?_, (isPrefixOf_eq_true_iff _ _).mpr ⟨r, rfl⟩⟩
    rw [List.mem_tails]
    exact ⟨l, by rw [h, List.append_assoc]⟩

theorem foldl_append_eq_filter {α : Type} (p : α → Bool) :
    ∀ l acc : List α,
      l.foldl (fun a x => if p x then a ++ [x] else a) acc = acc ++ l.filter p := by
  intro l
  induction l with
  | nil => intro acc; simp
  | cons x xs ih =>
    intro acc
    by_cases hx : p x
    · simp [List.foldl_cons, hx, ih, List.append_assoc]
    · simp [List.foldl_cons, hx, ih]

/-- C4: with a non-empty term, the search returns exactly the ordered
subsequence of books whose selected field (Title or Author) contains the term
as a case-insensitive substring; an empty term yields no results. -/
theorem search_book_spec (lib : List Book) (search_by term : String) :
    (term = "" → search_book lib search_by term = []) ∧
    (term ≠ "" →
      search_book lib search_by term =
        lib.filter (bookMatches search_by (lowerStr term)) ∧
      (search_book lib search_by term).Sublist lib ∧
      ∀ b : Book,
        b ∈ search_book lib search_by term ↔
          b ∈ lib ∧
            ((search_by = "Title" ∧
                ∃ l r : List Char,
                  lowerStr b.title = l ++ lowerStr term ++ r) ∨
             (search_by = "Author" ∧
                ∃ l r : List Char,
                  lowerStr b.author = l ++ lowerStr term ++ r))) := by
  constructor
  · intro h; simp [search_book, h]
  · intro hterm
    have hfilter : search_book lib search_by term =
        lib.filter (bookMatches search_by (lowerStr term)) := by
      rcases eq_or_ne lib [] with hlib | hlib
      · simp [search_book, hlib]
      · rw [search_book, if_neg hlib, if_neg hterm,
          foldl_append_eq_filter (bookMatches search_by (lowerStr term)) lib []]
        simp
    refine ⟨hfilter, hfilter ▸ List.filter_sublist lib, ?_⟩
    intro b
    rw [hfilter, List.mem_filter]
    have hmatch : bookMatches search_by (lowerStr term) b = true ↔
        ((search_by = "Title" ∧
            ∃ l r : List Char,
              lowerStr b.title = l ++ lowerStr term ++ r) ∨
         (search_by = "Author" ∧
            ∃ l r : List Char,
              lowerStr b.author = l ++ lowerStr term ++ r)) := by
      simp only [bookMatches, Bool.or_eq_true, Bool.and_eq_true, beq_iff_eq,
        charsContain_iff]
    rw [hmatch]

/-- Witness for C4: against The Hobbit / Dune, an author search for
"tolkien" (and for "TOLKIEN") returns exactly the first record. -/
theorem search_book_spec_witness :
    (("tolkien" : String) ≠ "") ∧
    search_book
        [⟨"The Hobbit", "J.R.R. Tolkien", 1937, "Fantasy", true⟩,
         ⟨"Dune", "Frank Herbert", 1965, "Science Fiction", false⟩]
        "Author" "tolkien" =
      [⟨"The Hobbit", "J.R.R. Tolkien", 1937, "Fantasy", true⟩] ∧
    search_book
        [⟨"The Hobbit", "J.R.R. Tolkien", 1937, "Fantasy", true⟩,
         ⟨"Dune", "Frank Herbert", 1965, "Science Fiction", false⟩]
        "Author" "TOLKIEN" =
      [⟨"The Hobbit", "J.R.R. Tolkien", 1937, "Fantasy", true⟩] := by
  refine ⟨by decide, ?_, ?_⟩
  · rw [((search_book_spec
      [⟨"The Hobbit", "J.R.R. Tolkien", 1937, "Fantasy", true⟩,
       ⟨"Dune", "Frank Herbert", 1965, "Science Fiction", false⟩]
      "Author" "tolkien").2 (by decide)).1]
    decide
  · rw [((search_book_spec
      [⟨"The Hobbit", "J.R.R. Tolkien", 1937, "Fantasy", true⟩,
       ⟨"Dune", "Frank Herbert", 1965, "Science Fiction", false⟩]
      "Author" "TOLKIEN").2 (by decide)).1]
    decide

/-! ## Theorems for claim C5 -/

theorem decodeBook_bookToJson (b : Book) : decodeBook (bookToJson b) = some b := rfl

theorem mapM_decodeBook (lib : List Book) :
    (lib.map bookToJson).mapM decodeBook = some lib := by
  induction lib with
  | nil => rfl
  | cons b bs ih =>
    rw [List.map_cons, List.mapM_cons, decodeBook_bookToJson, ih]
    rfl

/-- C5: saving any store of N records and then loading installs exactly the
encoded records, in order, regardless of the file's previous content; decoding
them recovers a list of books equal to the original store field by field. -/
theorem save_load_round_trip (lib : List Book) (prevFile : Option JValue) :
    startupLoad (.parsed (save_library lib prevFile)) = .arr (lib.map bookToJson) ∧
    decodeLibrary (startupLoad (.parsed (save_library lib prevFile))) = some lib := by
  refine ⟨rfl, ?_⟩
  show decodeLibrary (encodeLibrary lib) = some lib
  rw [encodeLibrary, decodeLibrary]
  exact mapM_decodeBook lib

/-! ## Theorems for claims C6 and C7 -/

/-- C6 counterexample: on the empty store `display_stats` returns early with
only the "Your library is empty." notice; it renders no metrics at all, so it
does not return total=0, read=0, percentage=0. -/
theorem display_stats_empty_counterexample :
    display_stats [] =
      { emptyInfo := true, metrics := none, genreChart := none } ∧
    (display_stats []).metrics ≠ some (0, 0, 0) := by
  refine ⟨rfl, ?_⟩
  intro h
  simp [display_stats] at h

/-- C6 amended: on the empty store the statistics view only reports that the
library is empty and computes no metrics, so no division happens at all; the
guarded percentage expression itself returns 0 whenever the total is 0. -/
theorem display_stats_empty_amended :
    display_stats [] =
      { emptyInfo := true, metrics := none, genreChart := none } ∧
    ∀ read_books : Nat, pctExpr read_books 0 = 0 := by
  exact ⟨rfl, fun _ => rfl⟩

/-- C7: a store of three books with read flags [true, true, false] reports
total=3, read=2 and percentage 200/3, rendered with one-decimal rounding as
"66.7". -/
theorem display_stats_three_books (b1 b2 b3 : Book)
    (h1 : b1.read = true) (h2 : b2.read = true) (h3 : b3.read = false) :
    (display_stats [b1, b2, b3]).metrics = some (3, 2, 200 / 3) ∧
    fmtPct1 (200 / 3) = "66.7" := by
  constructor
  · have hne : ([b1, b2, b3] : List Book) ≠ [] := by simp
    rw [display_stats, if_neg hne]
    simp only [List.filter_cons, h1, h2, h3, if_true, if_false, List.filter_nil,
      List.length_cons, List.length_nil, List.length_singleton]
    norm_num [pctExpr]
  · have h : round ((200 / 3 : ℚ) * 10) = 667 := by norm_num [round_eq]
    rw [fmtPct1, h]
    decide

/-- Witness for C7 at concrete books. -/
theorem display_stats_three_books_witness :
    ((⟨"A", "a", 2000, "F", true⟩ : Book).read = true) ∧
    ((⟨"B", "b", 2001, "F", true⟩ : Book).read = true) ∧
    ((⟨"C", "c", 2002, "G", false⟩ : Book).read = false) ∧
    (display_stats [⟨"A", "a", 2000, "F", true⟩, ⟨"B", "b", 2001, "F", true⟩,
      ⟨"C", "c", 2002, "G", false⟩]).metrics = some (3, 2, 200 / 3) ∧
    fmtPct1 (200 / 3) = "66.7" := by
  have h := display_stats_three_books ⟨"A", "a", 2000, "F", true⟩
    ⟨"B", "b", 2001, "F", true⟩ ⟨"C", "c", 2002, "G", false⟩ rfl rfl rfl
  exact ⟨rfl, rfl, rfl, h.1, h.2⟩

/-! ## Theorems for claim C8 -/

theorem any_key_eq_lookup_isSome (g : String) :
    ∀ counts : List (String × Nat),
      counts.any (fun p => p.1 == g) = (counts.lookup g).isSome := by
  intro counts
  induction counts with
  | nil => rfl
  | cons p t ih =>
    obtain ⟨k, v⟩ := p
    by_cases h : g = k
    · subst h; simp [List.lookup]
    · have h1 : (k == g) = false := beq_false_of_ne fun hh => h hh.symm
      have h2 : (g == k) = false := beq_false_of_ne h
      simp [List.lookup, h1, h2, ih]

theorem bumpIfKey_eq (g k : String) (v : Nat) (h : k = g) :
    bumpIfKey g (k, v) = (k, v + 1) := by
  simp [bumpIfKey, h]

theorem bumpIfKey_ne (g k : String) (v : Nat) (h : k ≠ g) :
    bumpIfKey g (k, v) = (k, v) := by
  simp [bumpIfKey, h]

theorem lookup_map_bump (g g' : String) :
    ∀ counts : List (String × Nat),
      (counts.map (bumpIfKey g)).lookup g' =
        if g' = g then (counts.lookup g').map (· + 1) else counts.lookup g' := by
  intro counts
  induction counts with
  | nil => simp
  | cons p t ih =>
    obtain ⟨k, v⟩ := p
    rw [List.map_cons]
    by_cases hgk : g' = k
    · have hb : (g' == k) = true := beq_iff_eq.mpr hgk
      by_cases hkg : k = g
      · rw [bumpIfKey_eq g k v hkg]
        have hgg : g' = g := hgk.trans hkg
        have hb2 : (g == k) = true := beq_iff_eq.mpr hkg.symm
        simp [List.lookup, hb, hgg, hb2]
      · rw [bumpIfKey_ne g k v hkg]
        have hgg : g' ≠ g := fun hh => hkg (hgk.symm.trans hh)
        simp [List.lookup, hb, hgg]
    · have hb : (g' == k) = false := beq_false_of_ne hgk
      by_cases hkg : k = g
      · rw [bumpIfKey_eq g k v hkg]
        simp [List.lookup, hb, ih]
      · rw [bumpIfKey_ne g k v hkg]
        simp [List.lookup, hb, ih]

theorem lookup_append_pairs (g : String) :
    ∀ l l2 : List (String × Nat),
      (l ++ l2).lookup g =
        match l.lookup g with
        | some v => some v
        | none => l2.lookup g := by
  intro l l2
  induction l with
  | nil => simp [List.lookup]
  | cons p t ih =>
    obtain ⟨k, v⟩ := p
    by_cases h : g = k
    · subst h; simp [List.lookup]
    · have h2 : (g == k) = false := beq_false_of_ne h
      simp [List.lookup, h2, ih]

theorem lookup_addGenre (counts : List (String × Nat)) (g g' : String) :
    (addGenre counts g).lookup g' =
      if g' = g then some ((counts.lookup g').getD 0 + 1)
      else counts.lookup g' := by
  rw [addGenre]
  by_cases hmem : counts.any (fun p => p.1 == g) = true
  · rw [if_pos hmem, lookup_map_bump]
    by_cases hg : g' = g
    · subst hg
      rw [any_key_eq_lookup_isSome] at hmem
      obtain ⟨v, hv⟩ := Option.isSome_iff_exists.mp hmem
      simp [hv]
    · simp [hg]
  · rw [if_neg hmem, lookup_append_pairs]
    by_cases hg : g' = g
    · subst hg
      rw [any_key_eq_lookup_isSome] at hmem
      have hnone : counts.lookup g' = none := by
        cases h : counts.lookup g' <;> simp [h] at hmem ⊢
      simp [hnone, List.lookup]
    · have h2 : (g' == g) = false := beq_false_of_ne hg
      cases h : counts.lookup g' <;> simp [h, hg, List.lookup, h2]

theorem foldl_addGenre_lookup (g : String) :
    ∀ (gs : List String) (counts : List (String × Nat)),
      (gs.foldl addGenre counts).lookup g =
        if gs.count g = 0 then counts.lookup g
        else some ((counts.lookup g).getD 0 + gs.count g) := by
  intro gs
  induction gs with
  | nil => intro counts; simp
  | cons a gs ih =>
    intro counts
    rw [List.foldl_cons, ih (addGenre counts a), List.count_cons,
      lookup_addGenre]
    by_cases hag : a = g
    · have hga : g = a := hag.symm
      simp only [hag, if_pos rfl, if_pos hga, beq_self_eq_true, if_true]
      by_cases hq : gs.count g = 0
      · simp [hq]
      · have : ¬ (gs.count g + 1 = 0) := by omega
        simp only [hq, if_false, this, Option.getD_some]
        have harith : (counts.lookup g).getD 0 + 1 + gs.count g =
            (counts.lookup g).getD 0 + (gs.count g + 1) := by omega
        rw [harith]
    · have h2 : (a == g) = false := beq_false_of_ne hag
      have h3 : g ≠ a := fun hh => hag hh.symm
      simp [h2, h3]

theorem genreCounts_lookup (gs : List String) (g : String) :
    (genreCountsList gs).lookup g =
      if gs.count g = 0 then none else some (gs.count g) := by
  rw [genreCountsList, foldl_addGenre_lookup]
  simp [List.lookup]

/-- C8: for every non-empty store, the genre distribution maps each genre
string that occurs to the exact number of records carrying it (and has no
entry for a genre that does not occur); an empty-string genre gets its own
entry like any other value. -/
theorem display_stats_genre_spec (lib : List Book) (h : lib ≠ []) :
    (display_stats lib).genreChart =
      some (genreCountsList (lib.map (fun b => b.genre))) ∧
    ∀ g : String,
      (genreCountsList (lib.map (fun b => b.genre))).lookup g =
        if lib.countP (fun b => b.genre == g) = 0 then none
        else some (lib.countP (fun b => b.genre == g)) := by
  constructor
  · rw [display_stats, if_neg h]
  · intro g
    have hcnt : (lib.map (fun b => b.genre)).count g =
        lib.countP (fun b => b.genre == g) := by
      simp only [List.count, List.countP_map]
      rfl
    rw [genreCounts_lookup, hcnt]

/-- Witness for C8: a concrete store where "Fantasy" occurs twice, the empty
genre once, and "X" never; the chart reports exactly those counts, with an
entry for the empty string. -/
theorem display_stats_genre_spec_witness :
    (([(⟨"A", "a", 2000, "Fantasy", true⟩ : Book), ⟨"B", "b", 2001, "", true⟩,
       ⟨"C", "c", 2002, "Fantasy", false⟩] : List Book) ≠ []) ∧
    (genreCountsList ([(⟨"A", "a", 2000, "Fantasy", true⟩ : Book),
        ⟨"B", "b", 2001, "", true⟩,
        ⟨"C", "c", 2002, "Fantasy", false⟩].map (fun b => b.genre))).lookup
      "Fantasy" = some 2 ∧
    (genreCountsList ([(⟨"A", "a", 2000, "Fantasy", true⟩ : Book),
        ⟨"B", "b", 2001, "", true⟩,
        ⟨"C", "c", 2002, "Fantasy", false⟩].map (fun b => b.genre))).lookup
      "" = some 1 ∧
    (genreCountsList ([(⟨"A", "a", 2000, "Fantasy", true⟩ : Book),
        ⟨"B", "b", 2001, "", true⟩,
        ⟨"C", "c", 2002, "Fantasy", false⟩].map (fun b => b.genre))).lookup
      "X" = none := by
  have h := display_stats_genre_spec
    [⟨"A", "a", 2000, "Fantasy", true⟩, ⟨"B", "b", 2001, "", true⟩,
     ⟨"C", "c", 2002, "Fantasy", false⟩] (by decide)
  refine ⟨by decide, ?_, ?_, ?_⟩
  · rw [h.2 "Fantasy"]; decide
  · rw [h.2 ""]; decide
  · rw [h.2 "X"]; decide

/-! ## Theorems for claim C9 -/

theorem contains_iff_mem_str (l : List String) (a : String) :
    l.contains a = true ↔ a ∈ l := by
  simp

theorem contains_eq_false_of_not_mem_str (l : List String) (a : String)
    (h : a ∉ l) : l.contains a = false := by
  cases hcb : l.contains a
  · rfl
  · exact absurd ((contains_iff_mem_str l a).mp hcb) h

set_option maxHeartbeats 1000000

/-- C10: whatever JSON value the file parses to is installed as the store
verbatim — the startup load applies no shape validation, so the loaded store
may violate every Book data-model invariant: here a store that is not even a
list, and a store whose only record has an empty title, no author field, no
genre, no read flag, and an out-of-range year, both load unchanged. -/
theorem startupLoad_no_validation :
    (∀ v : JValue, startupLoad (.parsed v) = v) ∧
    (startupLoad (.parsed (.int 7)) = .int 7 ∧
      specStoreValid (.int 7) = false) ∧
    (startupLoad
        (.parsed (.arr [.obj [("title", .str ""), ("year", .int 9999)]])) =
        .arr [.obj [("title", .str ""), ("year", .int 9999)]] ∧
      specStoreValid (.arr [.obj [("title", .str ""), ("year", .int 9999)]]) =
        false) := by
  exact ⟨fun v => rfl, ⟨rfl, rfl⟩, ⟨rfl, rfl⟩⟩

end LibraryManager
